import Mathlib

/-!
Verification of the gym_miniworld remote sensorimotor bridge
(`src/gym_miniworld/envs/remotebot.py`) and the action-space declarations of
the simulated environments (`hallway.py`, `threerooms.py`, `simtorealgoto.py`).

The embedding follows the source: `recv_array` is numpy `frombuffer` followed
by `reshape` (each rejecting a length mismatch), `RemoteBot` is a record of the
session's fields plus a trace of the messages written to the socket, and the
operations `reset`, `step`, `close` and the constructor mirror the Python
methods line by line.  Errors raised by the Python code are represented by the
error taxonomy of the specification (`Err` below).
-/

namespace Miniworld

/-- Error taxonomy of the bridge (spec section 7); a Python exception raised by
the corresponding code path is represented by the matching constructor. -/
inductive Err where
  | ConnectionError
  | SequenceError
  | InvalidAction
  | UnsupportedElementType
  | SizeMismatch
deriving DecidableEq, Repr

/-- The closed registry of element types the codec understands: the numpy
dtype identifiers accepted by `numpy.frombuffer(buf, dtype=md["dtype"])`. -/
inductive Dtype where
  | uint8
  | int8
  | uint16
  | int16
  | uint32
  | int32
  | uint64
  | int64
  | float32
  | float64
deriving DecidableEq, Repr

/-- Element size in bytes of each registry dtype (numpy `itemsize`). -/
def Dtype.itemsize : Dtype → ℕ
  | .uint8 => 1
  | .int8 => 1
  | .uint16 => 2
  | .int16 => 2
  | .uint32 => 4
  | .int32 => 4
  | .uint64 => 8
  | .int64 => 8
  | .float32 => 4
  | .float64 => 8

theorem Dtype.itemsize_pos (dt : Dtype) : 0 < dt.itemsize := by
  cases dt <;> simp [Dtype.itemsize]

/-- The dtype registry as a string lookup table: the wire header carries the
dtype as a string (`md["dtype"]`). -/
def dtypeRegistry : List (String × Dtype) :=
  [("uint8", .uint8), ("int8", .int8), ("uint16", .uint16), ("int16", .int16),
   ("uint32", .uint32), ("int32", .int32), ("uint64", .uint64), ("int64", .int64),
   ("float32", .float32), ("float64", .float64)]

/-- Look a wire dtype string up in the registry. -/
def lookupDtype (s : String) : Option Dtype :=
  (dtypeRegistry.find? (fun p => p.1 == s)).map (·.2)

/-- A decoded array payload: element type, shape, and the raw bytes
(`remotebot.py` keeps the reshaped numpy array; the byte content is the
buffer passed to `numpy.frombuffer`, which reshaping does not alter). -/
structure Frame where
  dtype : Dtype
  shape : List ℕ
  data : List ℕ
deriving DecidableEq, Repr

/-- `numpy.frombuffer`: fails unless the element size divides the buffer
length exactly; on success the flat array has `length / itemsize` elements
(`remotebot.py` line 49). -/
def frombufferCount (itemsize : ℕ) (payload : List ℕ) : Except Err ℕ :=
  if payload.length % itemsize = 0 then .ok (payload.length / itemsize)
  else .error .SizeMismatch

/-- `recv_array` at registry level (`remotebot.py` lines 41-51): frombuffer
then reshape; `A.reshape(md["shape"])` fails unless the flat element count
equals the product of the shape dimensions, and no array is produced on
failure. -/
def recvArrayD (dt : Dtype) (shape : List ℕ) (payload : List ℕ) : Except Err Frame :=
  match frombufferCount dt.itemsize payload with
  | .error e => .error e
  | .ok n => if n = shape.prod then .ok ⟨dt, shape, payload⟩ else .error .SizeMismatch

/-- `recv_array` with the wire-level header: the dtype arrives as a string and
must be a registry entry. -/
def recv_array (dtypeStr : String) (shape : List ℕ) (payload : List ℕ) :
    Except Err Frame :=
  match lookupDtype dtypeStr with
  | none => .error .UnsupportedElementType
  | some dt => recvArrayD dt shape payload

lemma recvArrayD_ok_of_length (dt : Dtype) (shape : List ℕ) (payload : List ℕ)
    (h : payload.length = shape.prod * dt.itemsize) :
    recvArrayD dt shape payload = .ok ⟨dt, shape, payload⟩ := by
  unfold recvArrayD frombufferCount
  have h1 : payload.length % dt.itemsize = 0 := by
    rw [h]; exact Nat.mul_mod_left _ _
  have h2 : payload.length / dt.itemsize = shape.prod := by
    rw [h]; exact Nat.mul_div_cancel _ dt.itemsize_pos
  simp [h1, h2]

lemma recvArrayD_length_of_ok (dt : Dtype) (shape : List ℕ) (payload : List ℕ)
    (f : Frame) (hf : recvArrayD dt shape payload = .ok f) :
    payload.length = shape.prod * dt.itemsize := by
  unfold recvArrayD frombufferCount at hf
  by_cases h1 : payload.length % dt.itemsize = 0
  · simp only [h1, if_pos rfl] at hf
    by_cases h2 : payload.length / dt.itemsize = shape.prod
    · rw [← h2]
      exact (Nat.div_mul_cancel ((Nat.dvd_iff_mod_eq_zero).mpr h1)).symm
    · simp [h2] at hf
  · simp [h1] at hf

lemma recvArrayD_sizeMismatch_of_length_ne (dt : Dtype) (shape : List ℕ)
    (payload : List ℕ) (hlen : payload.length ≠ shape.prod * dt.itemsize) :
    recvArrayD dt shape payload = .error .SizeMismatch := by
  unfold recvArrayD frombufferCount
  by_cases h1 : payload.length % dt.itemsize = 0
  · have h2 : payload.length / dt.itemsize ≠ shape.prod := by
      intro h2
      apply hlen
      rw [← h2]
      exact (Nat.div_mul_cancel ((Nat.dvd_iff_mod_eq_zero).mpr h1)).symm
    simp [h1, h2]
  · simp [h1]

/-- C1: for every registry dtype and every shape, decoding a reply payload
succeeds if and only if the payload byte length equals the product of the
shape dimensions times the element size of the dtype; any shorter or longer
buffer fails with SizeMismatch and no Frame is produced. -/
theorem recv_array_ok_iff_exact_length (dt : Dtype) (shape : List ℕ)
    (payload : List ℕ) :
    ((∃ f, recvArrayD dt shape payload = .ok f) ↔
      payload.length = shape.prod * dt.itemsize) ∧
    (payload.length ≠ shape.prod * dt.itemsize →
      recvArrayD dt shape payload = .error .SizeMismatch) :=
  ⟨⟨fun ⟨f, hf⟩ => recvArrayD_length_of_ok dt shape payload f hf,
    fun h => ⟨⟨dt, shape, payload⟩, recvArrayD_ok_of_length dt shape payload h⟩⟩,
   recvArrayD_sizeMismatch_of_length_ne dt shape payload⟩

/-- Witness for C1: a 2x3 uint8 payload of 6 bytes decodes; one of 7 bytes
fails with SizeMismatch. -/
theorem recv_array_ok_iff_exact_length_witness :
    (∃ f, recvArrayD .uint8 [2, 3] (List.replicate 6 0) = .ok f) ∧
    recvArrayD .uint8 [2, 3] (List.replicate 7 0) = .error .SizeMismatch :=
  ⟨(recv_array_ok_iff_exact_length .uint8 [2, 3] (List.replicate 6 0)).1.mpr
      (by decide),
   (recv_array_ok_iff_exact_length .uint8 [2, 3] (List.replicate 7 0)).2
      (by decide)⟩

/-- Modelled from the spec: the shared action enumeration
`MiniWorldEnv.Actions`, defined in `gym_miniworld/miniworld.py`, which is not
under src/ (src only references it: `RemoteBot.Actions = MiniWorldEnv.Actions`
and `self.actions.move_forward` in the env files).  The spec describes a
closed, ordered enumeration of supported actions beginning turn-left,
turn-right, move-forward (spec sections 3 and 4.2), with further actions
beyond the first three; the env docstrings in src fix the indices 0, 1, 2 of
the first three. -/
inductive Action where
  | turn_left
  | turn_right
  | move_forward
  | move_back
  | pickup
  | drop
  | toggle
  | done
deriving DecidableEq, Repr

/-- The ordered enumeration, index order as in the Python enum. -/
def actionList : List Action :=
  [.turn_left, .turn_right, .move_forward, .move_back, .pickup, .drop, .toggle, .done]

/-- Numeric value of an action in the enumeration. -/
def Action.toIdx : Action → ℕ
  | .turn_left => 0
  | .turn_right => 1
  | .move_forward => 2
  | .move_back => 3
  | .pickup => 4
  | .drop => 5
  | .toggle => 6
  | .done => 7

/-- Python `.name` of an action member, used in the action command message. -/
def Action.pyName : Action → String
  | .turn_left => "turn_left"
  | .turn_right => "turn_right"
  | .move_forward => "move_forward"
  | .move_back => "move_back"
  | .pickup => "pickup"
  | .drop => "drop"
  | .toggle => "toggle"
  | .done => "done"

/-- `len(self.actions)` (`remotebot.py` line 81). -/
def numActions : ℕ := actionList.length

/-- Enum lookup by value, `RemoteBot.Actions(action)`: `some` member when the
value is in range, otherwise the Python lookup raises (ValueError, represented
downstream as InvalidAction). -/
def ofIdx (n : ℕ) : Option Action := actionList.get? n

/-- An outbound command message as built by `socket.send_json`
(`remotebot.py` lines 140-146 and 155-157). -/
inductive Message where
  | reset (obs_width obs_height : ℕ)
  | action (name : String)
deriving DecidableEq, Repr

/-- A reply on the wire: the JSON header (dtype string and shape) plus the raw
payload bytes. -/
structure Wire where
  dtype : String
  shape : List ℕ
  payload : List ℕ
deriving DecidableEq, Repr

/-- The info dictionary returned by `reset`/`step`; empty at this layer. -/
def Info : Type := List (String × String)

/-- The `RemoteBot` session state (`remotebot.py` lines 54-119): observation
size, step counter, the cached decoded frame `self.img`, whether a render
window is open (`self.window`), whether the zmq socket is connected, and the
trace of messages written to the socket. -/
structure RemoteBot where
  obs_width : ℕ
  obs_height : ℕ
  step_count : ℕ
  img : Option Frame
  window : Bool
  socket_connected : Bool
  sent : List Message
deriving DecidableEq, Repr

/-- `RemoteBot.close` (`remotebot.py` lines 121-124): closes the render window
if one is open and returns; nothing else is touched. -/
def RemoteBot.close (s : RemoteBot) : RemoteBot :=
  { s with window := false }

/-- `RemoteBot._recv_frame` (`remotebot.py` lines 126-130): decode the reply
with `recv_array` and store it in `self.img`; a decode failure raises, leaving
`self.img` unchanged. -/
def RemoteBot.recvFrame (s : RemoteBot) (reply : Wire) :
    Except Err Frame × RemoteBot :=
  match recv_array reply.dtype reply.shape reply.payload with
  | .error e => (.error e, s)
  | .ok f => (.ok f, { s with img := some f })

/-- `RemoteBot.reset` (`remotebot.py` lines 132-151): zero the step counter,
send the reset command with the session's observation size, receive a frame,
and return `(img, {})`. -/
def RemoteBot.reset (s : RemoteBot) (reply : Wire) :
    Except Err (Frame × Info) × RemoteBot :=
  match RemoteBot.recvFrame
      { s with step_count := 0,
               sent := s.sent ++ [Message.reset s.obs_width s.obs_height] }
      reply with
  | (.error e, s2) => (.error e, s2)
  | (.ok f, s2) => (.ok (f, []), s2)

/-- `RemoteBot.step` (`remotebot.py` lines 153-169): look the action up in the
enumeration (`RemoteBot.Actions(action).name`, evaluated while building the
message, before `send_json` writes anything), send the action command, receive
a frame, bump the step counter, and return
`(img, reward=0, termination=False, truncation=False, {})`. -/
structure StepResult where
  obs : Frame
  reward : Int
  termination : Bool
  truncation : Bool
  info : List (String × String)
deriving DecidableEq, Repr

def RemoteBot.step (s : RemoteBot) (action : ℕ) (reply : Wire) :
    Except Err StepResult × RemoteBot :=
  match ofIdx action with
  | none => (.error .InvalidAction, s)
  | some a =>
    match RemoteBot.recvFrame
        { s with sent := s.sent ++ [Message.action a.pyName] } reply with
    | (.error e, s2) => (.error e, s2)
    | (.ok f, s2) =>
      (.ok { obs := f, reward := 0, termination := false, truncation := false,
             info := [] },
       { s2 with step_count := s2.step_count + 1 })

/-- `RemoteBot.__init__` (`remotebot.py` lines 67-119): record the observation
size, connect the socket, then call `self.reset()` before the constructor
returns. -/
def RemoteBot.init (obs_width obs_height : ℕ) (reply : Wire) :
    Except Err Unit × RemoteBot :=
  match RemoteBot.reset
      { obs_width := obs_width, obs_height := obs_height, step_count := 0,
        img := none, window := false, socket_connected := true, sent := [] }
      reply with
  | (.error e, s1) => (.error e, s1)
  | (.ok _, s1) => (.ok (), s1)

/-- C2: for every action id outside the closed action enumeration, `step`
fails with InvalidAction synchronously and the session (in particular the
trace of messages written to the channel) is completely unchanged: no
malformed command reaches the channel. -/
theorem step_invalid_action (s : RemoteBot) (a : ℕ) (reply : Wire)
    (h : numActions ≤ a) :
    s.step a reply = (.error .InvalidAction, s) := by
  have hnone : ofIdx a = none := by
    unfold ofIdx
    exact List.get?_eq_none.mpr h
  unfold RemoteBot.step
  rw [hnone]

/-- Witness for C2: action id 8 is outside the eight-member enumeration and is
rejected with the channel trace untouched. -/
theorem step_invalid_action_witness :
    RemoteBot.step
      { obs_width := 80, obs_height := 60, step_count := 0, img := none,
        window := false, socket_connected := true, sent := [] } 8
      ⟨"uint8", [60, 80, 3], []⟩ =
    (.error .InvalidAction,
     { obs_width := 80, obs_height := 60, step_count := 0, img := none,
       window := false, socket_connected := true, sent := [] }) :=
  step_invalid_action _ 8 _ (by decide)

lemma recvFrame_ok_elim (s : RemoteBot) (reply : Wire) (f : Frame)
    (s' : RemoteBot) (h : s.recvFrame reply = (.ok f, s')) :
    recv_array reply.dtype reply.shape reply.payload = .ok f ∧
    s' = { s with img := some f } := by
  unfold RemoteBot.recvFrame at h
  cases hr : recv_array reply.dtype reply.shape reply.payload with
  | error e => rw [hr] at h; simp at h
  | ok g =>
    rw [hr] at h
    simp only [Prod.mk.injEq, Except.ok.injEq] at h
    obtain ⟨hg, hs⟩ := h
    subst hg
    exact ⟨rfl, hs.symm⟩

lemma reset_ok_elim (s : RemoteBot) (reply : Wire) (f : Frame) (i : Info)
    (s' : RemoteBot) (h : s.reset reply = (.ok (f, i), s')) :
    recv_array reply.dtype reply.shape reply.payload = .ok f ∧ i = [] ∧
    s' = { s with step_count := 0,
                  sent := s.sent ++ [Message.reset s.obs_width s.obs_height],
                  img := some f } := by
  unfold RemoteBot.reset at h
  cases hrf : RemoteBot.recvFrame
      { s with step_count := 0,
               sent := s.sent ++ [Message.reset s.obs_width s.obs_height] }
      reply with
  | mk res s2 =>
    rw [hrf] at h
    cases res with
    | error e => simp at h
    | ok g =>
      simp only [Prod.mk.injEq, Except.ok.injEq] at h
      obtain ⟨⟨hg, hi⟩, hs⟩ := h
      obtain ⟨hra, hs2⟩ := recvFrame_ok_elim _ reply g s2 hrf
      subst hg
      refine ⟨hra, hi.symm, ?_⟩
      rw [← hs, hs2]

lemma step_ok_elim (s : RemoteBot) (a : ℕ) (reply : Wire) (r : StepResult)
    (s' : RemoteBot) (h : s.step a reply = (.ok r, s')) :
    ∃ act f, ofIdx a = some act ∧
      recv_array reply.dtype reply.shape reply.payload = .ok f ∧
      r = ⟨f, 0, false, false, []⟩ ∧
      s' = { s with sent := s.sent ++ [Message.action act.pyName],
                    img := some f, step_count := s.step_count + 1 } := by
  unfold RemoteBot.step at h
  split at h
  · simp at h
  · rename_i act hofa
    split at h
    · simp at h
    · rename_i g s2 hrf
      simp only [Prod.mk.injEq, Except.ok.injEq] at h
      obtain ⟨hr, hs⟩ := h
      obtain ⟨hra, hs2⟩ := recvFrame_ok_elim _ reply g s2 hrf
      refine ⟨act, g, hofa, hra, hr.symm, ?_⟩
      rw [← hs, hs2]

lemma init_ok_elim (w h : ℕ) (reply : Wire) (s' : RemoteBot)
    (hok : RemoteBot.init w h reply = (.ok (), s')) :
    ∃ f, recv_array reply.dtype reply.shape reply.payload = .ok f ∧
      s' = { obs_width := w, obs_height := h, step_count := 0,
             img := some f, window := false, socket_connected := true,
             sent := [Message.reset w h] } := by
  unfold RemoteBot.init at hok
  cases hrs : RemoteBot.reset
      { obs_width := w, obs_height := h, step_count := 0, img := none,
        window := false, socket_connected := true, sent := [] } reply with
  | mk res s1 =>
    rw [hrs] at hok
    cases res with
    | error e => simp at hok
    | ok p =>
      obtain ⟨f, i⟩ := p
      simp only [Prod.mk.injEq] at hok
      obtain ⟨hra, hi, hs1⟩ := reset_ok_elim _ reply f i s1 hrs
      refine ⟨f, hra, ?_⟩
      rw [← hok.2, hs1]
      rfl

/-- C3: for every valid action id, a successful step call returns exactly the
tuple (latest decoded Frame, reward 0, termination false, truncation false,
empty info dict); reward and termination are always neutral at this layer,
and the returned observation is the newly cached decoded frame. -/
theorem step_ok_tuple (s : RemoteBot) (a : ℕ) (reply : Wire) (r : StepResult)
    (s' : RemoteBot) (h : s.step a reply = (.ok r, s')) :
    r.reward = 0 ∧ r.termination = false ∧ r.truncation = false ∧
    r.info = [] ∧ s'.img = some r.obs ∧
    recv_array reply.dtype reply.shape reply.payload = .ok r.obs := by
  obtain ⟨act, f, hofa, hra, hr, hs⟩ := step_ok_elim s a reply r s' h
  subst hr
  subst hs
  exact ⟨rfl, rfl, rfl, rfl, rfl, hra⟩

/-- A fresh session record with the default observation size 80x60, exactly
the fields `__init__` sets before calling `self.reset()`. -/
def bot80 : RemoteBot :=
  { obs_width := 80, obs_height := 60, step_count := 0, img := none,
    window := false, socket_connected := true, sent := [] }

/-- A tiny well-formed reply used by the witnesses: uint8, shape 2x3x1,
6 payload bytes. -/
def wire6 : Wire := ⟨"uint8", [2, 3, 1], List.replicate 6 0⟩

/-- The frame `wire6` decodes to. -/
def frame6 : Frame := ⟨.uint8, [2, 3, 1], List.replicate 6 0⟩

/-- The step result a successful `step` on `wire6` returns. -/
def stepResult6 : StepResult := ⟨frame6, 0, false, false, []⟩

/-- The session after `bot80.step 2 wire6`. -/
def botAfterStep6 : RemoteBot :=
  { bot80 with sent := [Message.action "move_forward"], img := some frame6,
               step_count := 1 }

/-- The session after `bot80.reset wire6` (also the session produced by
`RemoteBot.init 80 60 wire6`, since `__init__` starts from exactly the
`bot80` fields). -/
def botAfterReset6 : RemoteBot :=
  { bot80 with step_count := 0, sent := [Message.reset 80 60],
               img := some frame6 }

lemma step_concrete_eval :
    bot80.step 2 wire6 = (.ok stepResult6, botAfterStep6) := by rfl

lemma reset_concrete_eval :
    bot80.reset wire6 = (.ok (frame6, []), botAfterReset6) := by rfl

lemma init_concrete_eval :
    RemoteBot.init 80 60 wire6 = (.ok (), botAfterReset6) := by rfl

/-- Witness for C3: the concrete successful step on `wire6` returns reward 0,
termination false, truncation false, empty info, and caches its observation. -/
theorem step_ok_tuple_witness :
    stepResult6.reward = 0 ∧ stepResult6.termination = false ∧
    stepResult6.truncation = false ∧ stepResult6.info = [] ∧
    botAfterStep6.img = some stepResult6.obs ∧
    recv_array wire6.dtype wire6.shape wire6.payload = .ok stepResult6.obs :=
  step_ok_tuple bot80 2 wire6 stepResult6 botAfterStep6 step_concrete_eval

/-- The reply of the concrete scenario: uint8 header, shape 60x80x3, and the
exact 14400 payload bytes. -/
def wire14400 : Wire := ⟨"uint8", [60, 80, 3], List.replicate 14400 0⟩

/-- The same header with a payload of only 14000 bytes. -/
def wire14000 : Wire := ⟨"uint8", [60, 80, 3], List.replicate 14000 0⟩

/-- The frame `wire14400` decodes to. -/
def frame14400 : Frame := ⟨.uint8, [60, 80, 3], List.replicate 14400 0⟩

/-- C4: a session with observation size 80x60 sends exactly the message
reset/obs_width=80/obs_height=60 on reset; a reply with header uint8, shape
60x80x3 and 14400 payload bytes decodes into a Frame of shape (60,80,3),
while a reply with only 14000 payload bytes fails with SizeMismatch. -/
theorem reset_concrete_scenario :
    bot80.reset wire14400 =
      (.ok (frame14400, []),
       { bot80 with step_count := 0, sent := [Message.reset 80 60],
                    img := some frame14400 }) ∧
    frame14400.shape = [60, 80, 3] ∧
    (bot80.reset wire14000).1 = .error .SizeMismatch := by
  have h1 : recv_array "uint8" [60, 80, 3] (List.replicate 14400 0) =
      .ok frame14400 := by
    unfold recv_array
    rw [show lookupDtype "uint8" = some Dtype.uint8 from rfl]
    exact recvArrayD_ok_of_length _ _ _
      (by rw [List.length_replicate]
          norm_num [List.prod_cons, List.prod_nil, Dtype.itemsize])
  have h2 : recv_array "uint8" [60, 80, 3] (List.replicate 14000 0) =
      .error .SizeMismatch := by
    unfold recv_array
    rw [show lookupDtype "uint8" = some Dtype.uint8 from rfl]
    exact recvArrayD_sizeMismatch_of_length_ne _ _ _
      (by rw [List.length_replicate]
          norm_num [List.prod_cons, List.prod_nil, Dtype.itemsize])
  refine ⟨?_, rfl, ?_⟩
  · unfold RemoteBot.reset RemoteBot.recvFrame
    rw [show wire14400.dtype = "uint8" from rfl,
        show wire14400.shape = [60, 80, 3] from rfl,
        show wire14400.payload = List.replicate 14400 0 from rfl, h1]
    rfl
  · unfold RemoteBot.reset RemoteBot.recvFrame
    rw [show wire14000.dtype = "uint8" from rfl,
        show wire14000.shape = [60, 80, 3] from rfl,
        show wire14000.payload = List.replicate 14000 0 from rfl, h2]

/-- C6 counterexample: on a session holding a connected socket, `close` leaves
the socket connected — the channel is not released, contradicting the claim
that close releases the channel and moves the session to Disconnected. -/
theorem close_does_not_release_channel :
    bot80.socket_connected = true ∧
    (RemoteBot.close bot80).socket_connected = true :=
  ⟨rfl, rfl⟩

/-- C6 amended: `close` is callable in every session state but releases only
the display window; the socket and every other session field are unchanged,
and no Disconnected transition occurs. -/
theorem close_closes_window_only (s : RemoteBot) :
    s.close.window = false ∧ s.close.socket_connected = s.socket_connected ∧
    s.close.img = s.img ∧ s.close.step_count = s.step_count ∧
    s.close.obs_width = s.obs_width ∧ s.close.obs_height = s.obs_height ∧
    s.close.sent = s.sent := by
  simp [RemoteBot.close]

/-- Modelled from the spec: the hypothetical re-encode of spec section 8 — a
Frame serializes back into its header element type and shape plus the raw
bytes (no encoder exists in src; the spec compares decode against this
re-encode). -/
def encodeFrame (f : Frame) : Dtype × List ℕ × List ℕ :=
  (f.dtype, f.shape, f.data)

/-- C7: for every valid (dtype, shape) pair and every byte buffer whose
length exactly matches product(shape) times element size, decoding and then
re-encoding yields the identical dtype, shape and bytes. -/
theorem decode_encode_roundtrip (dt : Dtype) (shape : List ℕ)
    (payload : List ℕ) (h : payload.length = shape.prod * dt.itemsize) :
    ∃ f, recvArrayD dt shape payload = .ok f ∧
      encodeFrame f = (dt, shape, payload) :=
  ⟨⟨dt, shape, payload⟩, recvArrayD_ok_of_length dt shape payload h, rfl⟩

/-- Witness for C7: the 6-byte uint8 buffer of shape 2x3x1 round-trips. -/
theorem decode_encode_roundtrip_witness :
    ∃ f, recvArrayD .uint8 [2, 3, 1] (List.replicate 6 0) = .ok f ∧
      encodeFrame f = (.uint8, [2, 3, 1], List.replicate 6 0) :=
  decode_encode_roundtrip .uint8 [2, 3, 1] (List.replicate 6 0) (by decide)

/-- C8: the constructor performs one full reset request/reply before
returning (it sends exactly the reset command and caches the decoded frame),
and after every successful reset or step the cached frame attribute holds the
decoded array. -/
theorem init_resets_and_caches :
    (∀ w h reply s', RemoteBot.init w h reply = (.ok (), s') →
       s'.sent = [Message.reset w h] ∧
       ∃ f, s'.img = some f ∧
         recv_array reply.dtype reply.shape reply.payload = .ok f) ∧
    (∀ s reply f i s', RemoteBot.reset s reply = (.ok (f, i), s') →
       s'.img = some f) ∧
    (∀ s a reply r s', RemoteBot.step s a reply = (.ok r, s') →
       s'.img = some r.obs) := by
  refine ⟨?_, ?_, ?_⟩
  · intro w h reply s' hok
    obtain ⟨f, hra, hs⟩ := init_ok_elim w h reply s' hok
    subst hs
    exact ⟨rfl, f, rfl, hra⟩
  · intro s reply f i s' hok
    obtain ⟨hra, hi, hs⟩ := reset_ok_elim s reply f i s' hok
    subst hs
    rfl
  · intro s a reply r s' hok
    obtain ⟨act, f, hofa, hra, hr, hs⟩ := step_ok_elim s a reply r s' hok
    subst hr
    subst hs
    rfl

/-- Witness for C8: the constructor at 80x60 with the `wire6` reply leaves
exactly one reset message on the channel and a cached frame, and the concrete
reset and step also cache their decoded frames. -/
theorem init_resets_and_caches_witness :
    (botAfterReset6.sent = [Message.reset 80 60] ∧
     ∃ f, botAfterReset6.img = some f ∧
       recv_array wire6.dtype wire6.shape wire6.payload = .ok f) ∧
    botAfterReset6.img = some frame6 ∧
    botAfterStep6.img = some stepResult6.obs :=
  ⟨init_resets_and_caches.1 80 60 wire6 botAfterReset6 init_concrete_eval,
   init_resets_and_caches.2.1 bot80 wire6 frame6 [] botAfterReset6
     reset_concrete_eval,
   init_resets_and_caches.2.2 bot80 2 wire6 stepResult6 botAfterStep6
     step_concrete_eval⟩

/-- C9: a successful step increments the step counter by exactly 1 and
leaves obs_width, obs_height, the socket and the render configuration
unchanged; a successful reset sets the step counter to exactly 0. -/
theorem step_increments_only_frame_and_counter :
    (∀ s a reply r s', RemoteBot.step s a reply = (.ok r, s') →
       s'.step_count = s.step_count + 1 ∧ s'.obs_width = s.obs_width ∧
       s'.obs_height = s.obs_height ∧
       s'.socket_connected = s.socket_connected ∧ s'.window = s.window) ∧
    (∀ s reply f i s', RemoteBot.reset s reply = (.ok (f, i), s') →
       s'.step_count = 0) := by
  constructor
  · intro s a reply r s' hok
    obtain ⟨act, f, hofa, hra, hr, hs⟩ := step_ok_elim s a reply r s' hok
    subst hs
    exact ⟨rfl, rfl, rfl, rfl, rfl⟩
  · intro s reply f i s' hok
    obtain ⟨hra, hi, hs⟩ := reset_ok_elim s reply f i s' hok
    subst hs
    rfl

/-- Witness for C9: the concrete step on `wire6` bumps the counter from 0 to
1 and changes none of the listed fields; the concrete reset zeroes it. -/
theorem step_increments_only_frame_and_counter_witness :
    (botAfterStep6.step_count = bot80.step_count + 1 ∧
     botAfterStep6.obs_width = bot80.obs_width ∧
     botAfterStep6.obs_height = bot80.obs_height ∧
     botAfterStep6.socket_connected = bot80.socket_connected ∧
     botAfterStep6.window = bot80.window) ∧
    botAfterReset6.step_count = 0 :=
  ⟨step_increments_only_frame_and_counter.1 bot80 2 wire6 stepResult6
     botAfterStep6 step_concrete_eval,
   step_increments_only_frame_and_counter.2 bot80 wire6 frame6 []
     botAfterReset6 reset_concrete_eval⟩

/-- `hallway.py` line 50:
`self.action_space = spaces.Discrete(self.actions.move_forward + 1)`. -/
def Hallway.action_space_n : ℕ := Action.move_forward.toIdx + 1

/-- `threerooms.py` line 44: the same action-space declaration. -/
def ThreeRooms.action_space_n : ℕ := Action.move_forward.toIdx + 1

/-- `simtorealgoto.py` line 60: the same action-space declaration. -/
def SimToRealGoTo.action_space_n : ℕ := Action.move_forward.toIdx + 1

/-- C10: Hallway, ThreeRooms and SimToRealGoTo all construct the discrete
action space of exactly the first three actions of the shared enumeration
(turn-left, turn-right, move-forward), although the enumeration has more
actions. -/
theorem movement_only_action_spaces :
    Hallway.action_space_n = 3 ∧ ThreeRooms.action_space_n = 3 ∧
    SimToRealGoTo.action_space_n = 3 ∧
    (∀ act : Action, act.toIdx < Hallway.action_space_n ↔
      (act = Action.turn_left ∨ act = Action.turn_right ∨
       act = Action.move_forward)) ∧
    Hallway.action_space_n < numActions := by
  refine ⟨rfl, rfl, rfl, ?_, by decide⟩
  intro act
  cases act <;> decide

end Miniworld
